import Mathlib

/-!
Verification of the coreum asset-ft module (token state machine and
transfer policy engine) against its specification.

The repository sources available are the integration tests
(src/unnamed/part_000), the genesis test (src/x/asset/ft/genesis_test.go)
and the gRPC query service (src/x/asset/ft/types/expected_keepers.go,
second file in that blob).  The keeper itself (message handlers, the
bank send hook, genesis import/export) is not among the sources, so those
operations are modelled from the specification, with the concrete
behaviors pinned by the integration tests taken as authoritative where
the tests are explicit.
-/

namespace AssetFT

/-- Token capabilities, a closed enum declared once at issuance
(spec section 3: features over mint, burn, freeze, whitelist). -/
inductive TokenFeature where
  | mint
  | burn
  | freeze
  | whitelist
deriving DecidableEq, Repr

/-- Error taxonomy of the module (spec section 7), plus the host bank's
insufficient-funds and invalid-address codes the module maps onto. -/
inductive Err where
  | tokenNotFound
  | unauthorized
  | featureNotActive
  | notEnoughBalance
  | insufficientFunds
  | globallyFrozen
  | whitelistedLimitExceeded
  | invalidAddress
deriving DecidableEq, Repr

/-- Fixed-point decimal scale used by the host's Dec type: 18 decimal
places.  A burn rate is stored as a natural numerator over this scale. -/
def decScale : Nat := 1000000000000000000

/-- FT token record (spec section 3).  `burnRate` is the numerator of the
fixed-point decimal over `decScale`; rate 0.10 is 10^17. -/
structure FT where
  denom : String
  issuer : String
  symbol : String := ""
  subunit : String := ""
  precision : Nat := 0
  description : String := ""
  features : List TokenFeature := []
  burnRate : Nat := 0
  globallyFrozen : Bool := false
deriving DecidableEq, Repr

/-- Modelled from the spec: ledger state seen by the send hook and the
issuer-op handlers.  The token registry, the frozen ledger, the
whitelisted-limit ledger, bank balances and bank total supply are total
maps; an absent entry is zero (spec section 3: "Absent entry is zero"). -/
structure Chain where
  tokens : String → Option FT
  frozen : String → String → Nat
  whitelisted : String → String → Nat
  balance : String → String → Nat
  supply : String → Nat

/-- Update one (account, denom) cell of a two-argument ledger map. -/
def setCell (f : String → String → Nat) (addr denom : String) (v : Nat) :
    String → String → Nat :=
  fun a d => if a = addr ∧ d = denom then v else f a d

/-- Update one denom of the supply map. -/
def setSupply (f : String → Nat) (denom : String) (v : Nat) : String → Nat :=
  fun d => if d = denom then v else f d

/-- Update one denom of the token registry. -/
def setToken (f : String → Option FT) (denom : String) (t : FT) :
    String → Option FT :=
  fun d => if d = denom then some t else f d

/-- Modelled from the spec: burn amount for a send of `amt` at fixed-point
rate `rate` (numerator over `decScale`), truncating toward zero
(spec section 4.8 rule 5: truncate at the integer-coin level). -/
def burnAmount (rate amt : Nat) : Nat :=
  amt * rate / decScale

/-- Burn charged to a sender for one coin movement of `amt`: zero when the
token's rate is zero or the sender or recipient is the issuer
(spec section 4.8 rule 5). -/
def sendBurn (ft : FT) (sender recipient : String) (amt : Nat) : Nat :=
  if ft.burnRate > 0 ∧ sender ≠ ft.issuer ∧ recipient ≠ ft.issuer then
    burnAmount ft.burnRate amt
  else 0

/-- Modelled from the spec: the send hook plus the bank transfer for a
single-sender, single-recipient send of one coin (spec section 4.8).
Checks run in spec order: global freeze, frozen balance, whitelist, then
the bank balance check, then balances and supply move.  One deliberate
deviation from the spec's prose, pinned by TestAssetFTGloballyFreeze
(src/unnamed/part_000 lines 662-688): the global-freeze check has no
issuer exemption — the issuer's own send also fails. -/
def sendResult (s : Chain) (sender recipient denom : String) (amt : Nat) :
    Except Err Chain :=
  match s.tokens denom with
  | none =>
      if s.balance sender denom < amt then .error .insufficientFunds
      else
        .ok { s with
          balance :=
            setCell (setCell s.balance sender denom (s.balance sender denom - amt))
              recipient denom
              ((setCell s.balance sender denom (s.balance sender denom - amt))
                recipient denom + amt) }
  | some ft =>
      if ft.globallyFrozen then .error .globallyFrozen
      else
        let burn := sendBurn ft sender recipient amt
        if TokenFeature.freeze ∈ ft.features ∧
            s.balance sender denom - s.frozen sender denom < amt then
          .error .insufficientFunds
        else if TokenFeature.whitelist ∈ ft.features ∧ recipient ≠ ft.issuer ∧
            s.whitelisted recipient denom < s.balance recipient denom + amt then
          .error .whitelistedLimitExceeded
        else if s.balance sender denom < amt + burn then
          .error .insufficientFunds
        else
          let afterDebit := setCell s.balance sender denom
            (s.balance sender denom - (amt + burn))
          .ok { s with
            balance := setCell afterDebit recipient denom
              (afterDebit recipient denom + amt),
            supply := setSupply s.supply denom (s.supply denom - burn) }

/-- Credit a list of (recipient, amount) outputs of one denom to the
balance map, in order. -/
def creditOutputs (f : String → String → Nat) (denom : String) :
    List (String × Nat) → String → String → Nat
  | [] => f
  | o :: rest =>
      creditOutputs (setCell f o.1 denom (f o.1 denom + o.2)) denom rest

/-- Total burn charged for a multi-send input, summed per input-output
pair.  Pinned by TestAssetFTBurnRate (src/unnamed/part_000 lines 268-299):
each output leg burns independently, including the leg whose recipient is
the issuer; only a sender who is the issuer is exempt. -/
def multiSendBurn (ft : FT) (sender : String) (outputs : List (String × Nat)) : Nat :=
  if ft.burnRate > 0 ∧ sender ≠ ft.issuer then
    (outputs.map (fun o => burnAmount ft.burnRate o.2)).sum
  else 0

/-- Modelled from the spec: the send hook plus the bank transfer for a
MultiSend with a single input of one denom distributed over `outputs`
(spec section 4.8, MultiSend semantics).  Rules 2 and 3 apply once to the
input total, rule 4 per output recipient; the burn is per input-output
pair as pinned by the test, with no exemption for outputs whose recipient
is the issuer. -/
def multiSendResult (s : Chain) (sender denom : String) (inAmt : Nat)
    (outputs : List (String × Nat)) : Except Err Chain :=
  match s.tokens denom with
  | none =>
      if s.balance sender denom < inAmt then .error .insufficientFunds
      else
        let afterDebit := setCell s.balance sender denom
          (s.balance sender denom - inAmt)
        .ok { s with balance := creditOutputs afterDebit denom outputs }
  | some ft =>
      if ft.globallyFrozen then .error .globallyFrozen
      else
        let burn := multiSendBurn ft sender outputs
        if TokenFeature.freeze ∈ ft.features ∧
            s.balance sender denom - s.frozen sender denom < inAmt then
          .error .insufficientFunds
        else if TokenFeature.whitelist ∈ ft.features ∧
            outputs.any (fun o => o.1 ≠ ft.issuer ∧
              s.whitelisted o.1 denom < s.balance o.1 denom + o.2) then
          .error .whitelistedLimitExceeded
        else if s.balance sender denom < inAmt + burn then
          .error .insufficientFunds
        else
          let afterDebit := setCell s.balance sender denom
            (s.balance sender denom - (inAmt + burn))
          .ok { s with
            balance := creditOutputs afterDebit denom outputs,
            supply := setSupply s.supply denom (s.supply denom - burn) }

/-- Error of a send attempt, if any. -/
def errorOf (r : Except Err Chain) : Option Err :=
  match r with
  | .ok _ => none
  | .error e => some e

/-- Whether a send attempt succeeded. -/
def isOk (r : Except Err Chain) : Bool :=
  match r with
  | .ok _ => true
  | .error _ => false

/-- Balance of (addr, denom) after a send attempt, if it succeeded. -/
def balanceAfter (r : Except Err Chain) (addr denom : String) : Option Nat :=
  match r with
  | .ok s => some (s.balance addr denom)
  | .error _ => none

/-- Supply of denom after a send attempt, if it succeeded. -/
def supplyAfter (r : Except Err Chain) (denom : String) : Option Nat :=
  match r with
  | .ok s => some (s.supply denom)
  | .error _ => none

/-- State after a send attempt, the fallback on error. -/
def getOk (r : Except Err Chain) (fallback : Chain) : Chain :=
  match r with
  | .ok s => s
  | .error _ => fallback

/-! Concrete scenario of TestAssetFTBurnRate (src/unnamed/part_000 lines
155-300): token ABC with burn rate 0.10, no features, initial supply 1000
held by the issuer. -/

/-- The ABC token of TestAssetFTBurnRate: burn rate 0.10, no features. -/
def ftABC : FT :=
  { denom := "abc-iss", issuer := "iss", symbol := "ABC", subunit := "abc",
    precision := 6, burnRate := 100000000000000000 }

/-- Initial chain state right after issuing ABC: issuer holds 1000. -/
def chainABC0 : Chain :=
  { tokens := fun d => if d = "abc-iss" then some ftABC else none,
    frozen := fun _ _ => 0,
    whitelisted := fun _ _ => 0,
    balance := fun a d => if a = "iss" ∧ d = "abc-iss" then 1000 else 0,
    supply := fun d => if d = "abc-iss" then 1000 else 0 }

/-- State after issuer sends 400 to r1. -/
def chainABC1 : Chain := getOk (sendResult chainABC0 "iss" "r1" "abc-iss" 400) chainABC0

/-- State after r1 sends 100 to r2. -/
def chainABC2 : Chain := getOk (sendResult chainABC1 "r1" "r2" "abc-iss" 100) chainABC0

/-- State after r2 sends 100 back to the issuer. -/
def chainABC3 : Chain := getOk (sendResult chainABC2 "r2" "iss" "abc-iss" 100) chainABC0

/-- The MultiSend of TestAssetFTBurnRate lines 268-299: input 200 from r1,
outputs 100 to the issuer and 100 to r2. -/
def msABC : Except Err Chain :=
  multiSendResult chainABC3 "r1" "abc-iss" 200 [("iss", 100), ("r2", 100)]

/-! Concrete scenario of TestAssetFTGloballyFreeze (src/unnamed/part_000
lines 616-716): token FREEZE with the freeze feature, globally frozen,
issuer holds all 1000. -/

/-- The FREEZE token after MsgGloballyFreeze. -/
def ftFRZ : FT :=
  { denom := "freeze-iss", issuer := "iss", symbol := "FREEZE",
    subunit := "freeze", precision := 6,
    features := [TokenFeature.freeze], globallyFrozen := true }

/-- Chain state with the globally frozen FREEZE token. -/
def chainFRZ : Chain :=
  { tokens := fun d => if d = "freeze-iss" then some ftFRZ else none,
    frozen := fun _ _ => 0,
    whitelisted := fun _ _ => 0,
    balance := fun a d => if a = "iss" ∧ d = "freeze-iss" then 1000 else 0,
    supply := fun d => if d = "freeze-iss" then 1000 else 0 }

/-! Helper lemmas about the map updates. -/

theorem setCell_self (f : String → String → Nat) (a d : String) (v : Nat) :
    setCell f a d v a d = v := by
  simp [setCell]

theorem setCell_other (f : String → String → Nat) (a d : String) (v : Nat)
    (a' d' : String) (h : ¬(a' = a ∧ d' = d)) :
    setCell f a d v a' d' = f a' d' := by
  simp only [setCell]
  rw [if_neg h]

theorem setSupply_self (f : String → Nat) (d : String) (v : Nat) :
    setSupply f d v d = v := by
  simp [setSupply]

/-! Claim C1.  The spec asserts an issuer exemption from the global-freeze
check; TestAssetFTGloballyFreeze (src/unnamed/part_000 lines 662-688)
shows the opposite: the issuer's own send of a globally frozen token
fails with ErrGloballyFrozen. -/

/-- C1 counterexample: in the TestAssetFTGloballyFreeze state the sender
"iss" is the issuer of the globally frozen token, yet the send of 50
fails with ErrGloballyFrozen instead of succeeding, refuting the claimed
issuer exemption. -/
theorem c1_issuer_not_exempt_counterexample :
    chainFRZ.tokens "freeze-iss" = some ftFRZ ∧
    ftFRZ.issuer = "iss" ∧
    ftFRZ.globallyFrozen = true ∧
    errorOf (sendResult chainFRZ "iss" "rcp" "freeze-iss" 50) =
      some Err.globallyFrozen ∧
    isOk (sendResult chainFRZ "iss" "rcp" "freeze-iss" 50) = false := by
  decide

/-- C1 amended: for every send of a token whose FT record has
globally_frozen set, the send fails with ErrGloballyFrozen whether or not
the sender is the issuer (no issuer exemption). -/
theorem c1_globally_frozen_blocks_every_send (s : Chain) (ft : FT)
    (sender recipient denom : String) (amt : Nat)
    (htok : s.tokens denom = some ft)
    (hgf : ft.globallyFrozen = true) :
    errorOf (sendResult s sender recipient denom amt) = some Err.globallyFrozen := by
  unfold sendResult
  rw [htok]
  simp [hgf, errorOf]

/-- C1 witness: the amended theorem applied to a non-issuer sender in the
TestAssetFTGloballyFreeze state. -/
theorem c1_globally_frozen_blocks_every_send_witness :
    (chainFRZ.tokens "freeze-iss" = some ftFRZ ∧ ftFRZ.globallyFrozen = true) ∧
    errorOf (sendResult chainFRZ "rcp" "other" "freeze-iss" 10) =
      some Err.globallyFrozen :=
  ⟨by decide,
   c1_globally_frozen_blocks_every_send chainFRZ ftFRZ "rcp" "other" "freeze-iss" 10
     (by decide) (by decide)⟩

/-! Claim C2: burn rate on a single-sender send. -/

/-- C2: for a single-sender send of a token with no freeze or whitelist
feature and not globally frozen, the sender is debited the sent amount
plus the burn, the recipient is credited the sent amount, and total
supply decreases by exactly the burn; the burn is trunc(amount * rate)
when rate > 0 and neither party is the issuer, and zero when the sender
or the recipient is the issuer. -/
theorem c2_burn_rate_single_send (s : Chain) (ft : FT)
    (sender recipient denom : String) (amt : Nat)
    (htok : s.tokens denom = some ft)
    (hgf : ft.globallyFrozen = false)
    (hfr : TokenFeature.freeze ∉ ft.features)
    (hwl : TokenFeature.whitelist ∉ ft.features)
    (hne : sender ≠ recipient)
    (hbal : amt + sendBurn ft sender recipient amt ≤ s.balance sender denom) :
    ∃ s', sendResult s sender recipient denom amt = .ok s' ∧
      s'.balance sender denom =
        s.balance sender denom - (amt + sendBurn ft sender recipient amt) ∧
      s'.balance recipient denom = s.balance recipient denom + amt ∧
      s'.supply denom = s.supply denom - sendBurn ft sender recipient amt ∧
      ((sender = ft.issuer ∨ recipient = ft.issuer) →
        sendBurn ft sender recipient amt = 0) ∧
      (sender ≠ ft.issuer → recipient ≠ ft.issuer → 0 < ft.burnRate →
        sendBurn ft sender recipient amt = burnAmount ft.burnRate amt) := by
  have hnlt : ¬ (s.balance sender denom < amt + sendBurn ft sender recipient amt) :=
    not_lt.mpr hbal
  unfold sendResult
  rw [htok]
  simp only [hgf, Bool.false_eq_true, if_false, hfr, false_and, if_true,
    hwl, hnlt]
  refine ⟨_, rfl, ?_, ?_, ?_, ?_, ?_⟩
  · dsimp only
    rw [setCell_other _ _ _ _ _ _ (fun h => hne h.1), setCell_self]
  · dsimp only
    rw [setCell_self, setCell_other _ _ _ _ _ _ (fun h => hne h.1.symm)]
  · dsimp only
    exact setSupply_self _ _ _
  · rintro (h | h) <;> simp [sendBurn, h]
  · intro h1 h2 h3
    simp [sendBurn, h1, h2, h3]

/-- C2 witness: the theorem applied to the r1 to r2 send of 100 in the
TestAssetFTBurnRate scenario, together with the concrete balances and
supplies the test pins at every step: after issuer sends 400 the supply
stays 1000; after r1 sends 100 to r2 r1 holds 290 and supply is 990;
after r2 sends 100 back to the issuer supply is still 990. -/
theorem c2_burn_rate_single_send_witness :
    (chainABC1.tokens "abc-iss" = some ftABC ∧
     ftABC.globallyFrozen = false ∧
     TokenFeature.freeze ∉ ftABC.features ∧
     TokenFeature.whitelist ∉ ftABC.features ∧
     100 + sendBurn ftABC "r1" "r2" 100 ≤ chainABC1.balance "r1" "abc-iss") ∧
    (∃ s', sendResult chainABC1 "r1" "r2" "abc-iss" 100 = .ok s' ∧
      s'.balance "r1" "abc-iss" =
        chainABC1.balance "r1" "abc-iss" - (100 + sendBurn ftABC "r1" "r2" 100) ∧
      s'.balance "r2" "abc-iss" = chainABC1.balance "r2" "abc-iss" + 100 ∧
      s'.supply "abc-iss" = chainABC1.supply "abc-iss" - sendBurn ftABC "r1" "r2" 100 ∧
      (("r1" = ftABC.issuer ∨ "r2" = ftABC.issuer) →
        sendBurn ftABC "r1" "r2" 100 = 0) ∧
      ("r1" ≠ ftABC.issuer → "r2" ≠ ftABC.issuer → 0 < ftABC.burnRate →
        sendBurn ftABC "r1" "r2" 100 = burnAmount ftABC.burnRate 100)) ∧
    (chainABC1.balance "iss" "abc-iss" = 600 ∧
     chainABC1.balance "r1" "abc-iss" = 400 ∧
     chainABC1.supply "abc-iss" = 1000 ∧
     chainABC2.balance "r1" "abc-iss" = 290 ∧
     chainABC2.balance "r2" "abc-iss" = 100 ∧
     chainABC2.supply "abc-iss" = 990 ∧
     chainABC3.balance "iss" "abc-iss" = 700 ∧
     chainABC3.balance "r2" "abc-iss" = 0 ∧
     chainABC3.supply "abc-iss" = 990) :=
  ⟨by decide,
   c2_burn_rate_single_send chainABC1 ftABC "r1" "r2" "abc-iss" 100
     (by decide) (by decide) (by decide) (by decide) (by decide) (by decide),
   by decide⟩

/-! Claim C3.  The spec's scenario prose asserts that the MultiSend leg
whose recipient is the issuer incurs no burn (total burn 10, sender loses
210); TestAssetFTBurnRate (src/unnamed/part_000 lines 268-299) pins the
opposite: both legs burn (total burn 20), r1 ends at 70, supply at 970. -/

/-- C3 counterexample: in the TestAssetFTBurnRate state (r1 holds 290,
supply 990), r1's MultiSend of 200 split 100 to the issuer and 100 to r2
leaves r1 with 70 and supply 970 — the claim's "burns exactly 10, sender
loses 210" would leave r1 with 80 and supply 980. -/
theorem c3_issuer_leg_burns_counterexample :
    chainABC3.balance "r1" "abc-iss" = 290 ∧
    chainABC3.supply "abc-iss" = 990 ∧
    balanceAfter msABC "r1" "abc-iss" = some 70 ∧
    ¬ balanceAfter msABC "r1" "abc-iss" = some 80 ∧
    supplyAfter msABC "abc-iss" = some 970 ∧
    ¬ supplyAfter msABC "abc-iss" = some 980 ∧
    balanceAfter msABC "iss" "abc-iss" = some 800 ∧
    balanceAfter msABC "r2" "abc-iss" = some 100 := by
  decide

/-- C3 amended: for a MultiSend from a non-issuer of a token with
burn_rate > 0 (no freeze or whitelist feature, not globally frozen), the
burn is applied per input-output pair independently with no exemption for
the output whose recipient is the issuer: an input of a + b split into a
to the issuer and b to another non-issuer burns
trunc(a * rate) + trunc(b * rate), so the sender loses
a + b + both truncated burns, and total supply decreases by exactly that
burn. -/
theorem c3_multisend_burn_per_output (s : Chain) (ft : FT)
    (sender rcp denom : String) (a b : Nat)
    (htok : s.tokens denom = some ft)
    (hgf : ft.globallyFrozen = false)
    (hfr : TokenFeature.freeze ∉ ft.features)
    (hwl : TokenFeature.whitelist ∉ ft.features)
    (hsi : sender ≠ ft.issuer)
    (hrate : 0 < ft.burnRate)
    (hsr : sender ≠ rcp)
    (hri : rcp ≠ ft.issuer)
    (hbal : a + b + (burnAmount ft.burnRate a + burnAmount ft.burnRate b) ≤
      s.balance sender denom) :
    ∃ s', multiSendResult s sender denom (a + b) [(ft.issuer, a), (rcp, b)] = .ok s' ∧
      s'.balance sender denom =
        s.balance sender denom -
          (a + b + (burnAmount ft.burnRate a + burnAmount ft.burnRate b)) ∧
      s'.balance ft.issuer denom = s.balance ft.issuer denom + a ∧
      s'.balance rcp denom = s.balance rcp denom + b ∧
      s'.supply denom =
        s.supply denom - (burnAmount ft.burnRate a + burnAmount ft.burnRate b) := by
  have hburn : multiSendBurn ft sender [(ft.issuer, a), (rcp, b)] =
      burnAmount ft.burnRate a + burnAmount ft.burnRate b := by
    simp [multiSendBurn, hrate, hsi]
  have hnlt : ¬ (s.balance sender denom <
      (a + b) + multiSendBurn ft sender [(ft.issuer, a), (rcp, b)]) := by
    rw [hburn]
    exact not_lt.mpr hbal
  unfold multiSendResult
  rw [htok]
  simp only [hgf, Bool.false_eq_true, if_false, hfr, false_and, hwl, hnlt,
    if_true]
  refine ⟨_, rfl, ?_, ?_, ?_, ?_⟩
  · dsimp only [creditOutputs]
    rw [setCell_other _ _ _ _ _ _ (fun h => hsr h.1),
      setCell_other _ _ _ _ _ _ (fun h => hsi h.1),
      setCell_self, hburn]
  · dsimp only [creditOutputs]
    rw [setCell_other _ _ _ _ _ _ (fun h => hri h.1.symm),
      setCell_self,
      setCell_other _ _ _ _ _ _ (fun h => hsi h.1.symm)]
  · dsimp only [creditOutputs]
    rw [setCell_self,
      setCell_other _ _ _ _ _ _ (fun h => hri h.1),
      setCell_other _ _ _ _ _ _ (fun h => hsr h.1.symm)]
  · dsimp only
    rw [setSupply_self, hburn]

/-- C3 witness: the amended theorem applied to the exact MultiSend of the
test, input 200 from r1 split 100 to the issuer and 100 to r2 at rate
0.10, burning 10 + 10 = 20. -/
theorem c3_multisend_burn_per_output_witness :
    (chainABC3.tokens "abc-iss" = some ftABC ∧
     ftABC.globallyFrozen = false ∧
     TokenFeature.freeze ∉ ftABC.features ∧
     TokenFeature.whitelist ∉ ftABC.features ∧
     "r1" ≠ ftABC.issuer ∧
     0 < ftABC.burnRate ∧
     100 + 100 + (burnAmount ftABC.burnRate 100 + burnAmount ftABC.burnRate 100) ≤
       chainABC3.balance "r1" "abc-iss") ∧
    (∃ s', multiSendResult chainABC3 "r1" "abc-iss" (100 + 100)
        [(ftABC.issuer, 100), ("r2", 100)] = .ok s' ∧
      s'.balance "r1" "abc-iss" =
        chainABC3.balance "r1" "abc-iss" -
          (100 + 100 + (burnAmount ftABC.burnRate 100 + burnAmount ftABC.burnRate 100)) ∧
      s'.balance ftABC.issuer "abc-iss" = chainABC3.balance ftABC.issuer "abc-iss" + 100 ∧
      s'.balance "r2" "abc-iss" = chainABC3.balance "r2" "abc-iss" + 100 ∧
      s'.supply "abc-iss" =
        chainABC3.supply "abc-iss" -
          (burnAmount ftABC.burnRate 100 + burnAmount ftABC.burnRate 100)) :=
  ⟨by decide,
   c3_multisend_burn_per_output chainABC3 ftABC "r1" "r2" "abc-iss" 100 100
     (by decide) (by decide) (by decide) (by decide) (by decide) (by decide)
     (by decide) (by decide) (by decide)⟩

/-! Concrete scenario of TestAssetFTFreeze (src/unnamed/part_000 lines
357-614): freeze-featured token, recipient holds all 1000 with 400
frozen. -/

/-- The freeze-featured ABC token of TestAssetFTFreeze. -/
def ftFreezeT : FT :=
  { denom := "uabc-iss", issuer := "iss", symbol := "ABC", subunit := "uabc",
    precision := 6, features := [TokenFeature.freeze] }

/-- TestAssetFTFreeze state after the issuer sent all 1000 to "rcp" and
froze 400 of them. -/
def chainFreezeT : Chain :=
  { tokens := fun d => if d = "uabc-iss" then some ftFreezeT else none,
    frozen := fun a d => if a = "rcp" ∧ d = "uabc-iss" then 400 else 0,
    whitelisted := fun _ _ => 0,
    balance := fun a d => if a = "rcp" ∧ d = "uabc-iss" then 1000 else 0,
    supply := fun d => if d = "uabc-iss" then 1000 else 0 }

/-! Concrete scenario of TestAssetFTWhitelist (src/unnamed/part_000 lines
985-1259): whitelist-featured token, issuer holds 20000, recipient "rcp"
whitelisted for 400, "rcp0" holds 10 to send back to the issuer. -/

/-- The whitelist-featured ABC token of TestAssetFTWhitelist. -/
def ftWlT : FT :=
  { denom := "uabc-iss", issuer := "iss", symbol := "ABC", subunit := "uabc",
    precision := 6, features := [TokenFeature.whitelist] }

/-- TestAssetFTWhitelist state after the issuer whitelisted 400 for
"rcp". -/
def chainWlT : Chain :=
  { tokens := fun d => if d = "uabc-iss" then some ftWlT else none,
    frozen := fun _ _ => 0,
    whitelisted := fun a d => if a = "rcp" ∧ d = "uabc-iss" then 400 else 0,
    balance := fun a d =>
      if a = "iss" ∧ d = "uabc-iss" then 19990
      else if a = "rcp0" ∧ d = "uabc-iss" then 10 else 0,
    supply := fun d => if d = "uabc-iss" then 20000 else 0 }

/-! Claim C4: the frozen-balance check on sends (spec section 4.8 rule 3,
pinned by TestAssetFTFreeze, src/unnamed/part_000 lines 491-576). -/

/-- C4: for a send of a token whose features contain freeze (not globally
frozen, zero burn rate, no whitelist feature), the send fails with
ErrInsufficientFunds if and only if the sent amount exceeds
spendable = max(0, balance - frozen) (natural subtraction), and a send of
exactly the spendable amount succeeds. -/
theorem c4_freeze_spendable (s : Chain) (ft : FT)
    (sender recipient denom : String) (amt : Nat)
    (htok : s.tokens denom = some ft)
    (hfr : TokenFeature.freeze ∈ ft.features)
    (hgf : ft.globallyFrozen = false)
    (hbr : ft.burnRate = 0)
    (hwl : TokenFeature.whitelist ∉ ft.features) :
    (errorOf (sendResult s sender recipient denom amt) = some Err.insufficientFunds ↔
      s.balance sender denom - s.frozen sender denom < amt) ∧
    isOk (sendResult s sender recipient denom
      (s.balance sender denom - s.frozen sender denom)) = true := by
  have hb : ∀ n, sendBurn ft sender recipient n = 0 := by
    intro n
    simp [sendBurn, hbr]
  constructor
  · unfold sendResult
    rw [htok]
    by_cases h : s.balance sender denom - s.frozen sender denom < amt
    · simp [errorOf, hgf, hfr, h]
    · have hamt : amt ≤ s.balance sender denom :=
        le_trans (not_lt.mp h) (Nat.sub_le _ _)
      have hnb : ¬ (s.balance sender denom < amt + sendBurn ft sender recipient amt) := by
        rw [hb]
        omega
      simp [errorOf, hgf, hfr, h, hwl, hnb]
  · unfold sendResult
    rw [htok]
    have h1 : ¬ (s.balance sender denom - s.frozen sender denom <
        s.balance sender denom - s.frozen sender denom) := lt_irrefl _
    have hnb : ¬ (s.balance sender denom <
        s.balance sender denom - s.frozen sender denom +
          sendBurn ft sender recipient (s.balance sender denom - s.frozen sender denom)) := by
      rw [hb]
      omega
    simp [isOk, hgf, hfr, hwl, h1, hnb]

/-- C4 witness: the theorem applied in the TestAssetFTFreeze state where
the recipient holds 1000 of which 400 are frozen: a send of 650 exceeds
spendable 600 and fails with ErrInsufficientFunds, and a send of exactly
600 succeeds. -/
theorem c4_freeze_spendable_witness :
    (chainFreezeT.tokens "uabc-iss" = some ftFreezeT ∧
     TokenFeature.freeze ∈ ftFreezeT.features ∧
     ftFreezeT.globallyFrozen = false ∧
     ftFreezeT.burnRate = 0 ∧
     TokenFeature.whitelist ∉ ftFreezeT.features) ∧
    ((errorOf (sendResult chainFreezeT "rcp" "rcp2" "uabc-iss" 650) =
        some Err.insufficientFunds ↔
      chainFreezeT.balance "rcp" "uabc-iss" - chainFreezeT.frozen "rcp" "uabc-iss" < 650) ∧
     isOk (sendResult chainFreezeT "rcp" "rcp2" "uabc-iss"
       (chainFreezeT.balance "rcp" "uabc-iss" - chainFreezeT.frozen "rcp" "uabc-iss")) = true) ∧
    (chainFreezeT.balance "rcp" "uabc-iss" - chainFreezeT.frozen "rcp" "uabc-iss" = 600 ∧
     errorOf (sendResult chainFreezeT "rcp" "rcp2" "uabc-iss" 650) =
       some Err.insufficientFunds ∧
     isOk (sendResult chainFreezeT "rcp" "rcp2" "uabc-iss" 600) = true) :=
  ⟨by decide,
   c4_freeze_spendable chainFreezeT ftFreezeT "rcp" "rcp2" "uabc-iss" 650
     (by decide) (by decide) (by decide) (by decide) (by decide),
   by decide⟩

/-! Claim C5: the whitelist check on sends (spec section 4.8 rule 4,
pinned by TestAssetFTWhitelist, src/unnamed/part_000 lines 985-1259). -/

/-- C5: for a send of a token whose features contain whitelist (not
globally frozen, zero burn rate, no freeze feature, sender funded), if
the recipient is not the issuer the send fails with
ErrWhitelistedLimitExceeded exactly when the recipient's balance plus the
incoming amount would exceed the whitelisted limit; a send landing
exactly at the limit succeeds; and a send to the issuer succeeds
regardless of any stored limit. -/
theorem c5_whitelist_limit (s : Chain) (ft : FT)
    (sender recipient denom : String) (amt : Nat)
    (htok : s.tokens denom = some ft)
    (hwl : TokenFeature.whitelist ∈ ft.features)
    (hgf : ft.globallyFrozen = false)
    (hfr : TokenFeature.freeze ∉ ft.features)
    (hbr : ft.burnRate = 0)
    (hbal : amt ≤ s.balance sender denom) :
    (recipient ≠ ft.issuer →
      (errorOf (sendResult s sender recipient denom amt) =
          some Err.whitelistedLimitExceeded ↔
        s.whitelisted recipient denom < s.balance recipient denom + amt)) ∧
    (recipient ≠ ft.issuer →
      s.balance recipient denom + amt = s.whitelisted recipient denom →
      isOk (sendResult s sender recipient denom amt) = true) ∧
    (recipient = ft.issuer →
      isOk (sendResult s sender recipient denom amt) = true) := by
  have hb : sendBurn ft sender recipient amt = 0 := by
    simp [sendBurn, hbr]
  have hnb : ¬ (s.balance sender denom < amt + sendBurn ft sender recipient amt) := by
    rw [hb]
    exact not_lt.mpr (by simpa using hbal)
  refine ⟨?_, ?_, ?_⟩
  · intro hri
    unfold sendResult
    rw [htok]
    by_cases h : s.whitelisted recipient denom < s.balance recipient denom + amt
    · simp [errorOf, hgf, hfr, hwl, hri, h]
    · simp [errorOf, hgf, hfr, hwl, hri, h, hnb]
  · intro hri hexact
    have h : ¬ (s.whitelisted recipient denom < s.balance recipient denom + amt) :=
      not_lt.mpr (le_of_eq hexact)
    unfold sendResult
    rw [htok]
    simp [isOk, hgf, hfr, hwl, hri, h, hnb]
  · intro hri
    subst hri
    unfold sendResult
    rw [htok]
    simp [isOk, hgf, hfr, hwl, hnb]

/-- C5 witness: the theorem applied in the TestAssetFTWhitelist state
where the recipient's limit is 400 and balance 0: receiving 600 exceeds
the limit, receiving exactly 400 lands at the limit and succeeds, and a
send to the issuer succeeds although the issuer has no stored limit. -/
theorem c5_whitelist_limit_witness :
    (chainWlT.tokens "uabc-iss" = some ftWlT ∧
     TokenFeature.whitelist ∈ ftWlT.features ∧
     ftWlT.globallyFrozen = false ∧
     TokenFeature.freeze ∉ ftWlT.features ∧
     ftWlT.burnRate = 0 ∧
     600 ≤ chainWlT.balance "iss" "uabc-iss") ∧
    (("rcp" ≠ ftWlT.issuer →
      (errorOf (sendResult chainWlT "iss" "rcp" "uabc-iss" 600) =
          some Err.whitelistedLimitExceeded ↔
        chainWlT.whitelisted "rcp" "uabc-iss" <
          chainWlT.balance "rcp" "uabc-iss" + 600)) ∧
     ("rcp" ≠ ftWlT.issuer →
      chainWlT.balance "rcp" "uabc-iss" + 600 = chainWlT.whitelisted "rcp" "uabc-iss" →
      isOk (sendResult chainWlT "iss" "rcp" "uabc-iss" 600) = true) ∧
     ("rcp" = ftWlT.issuer →
      isOk (sendResult chainWlT "iss" "rcp" "uabc-iss" 600) = true)) ∧
    (errorOf (sendResult chainWlT "iss" "rcp" "uabc-iss" 600) =
       some Err.whitelistedLimitExceeded ∧
     isOk (sendResult chainWlT "iss" "rcp" "uabc-iss" 400) = true ∧
     chainWlT.whitelisted "iss" "uabc-iss" = 0 ∧
     isOk (sendResult chainWlT "rcp0" "iss" "uabc-iss" 10) = true) :=
  ⟨by decide,
   c5_whitelist_limit chainWlT ftWlT "iss" "rcp" "uabc-iss" 600
     (by decide) (by decide) (by decide) (by decide) (by decide) (by decide),
   by decide⟩

/-! Privileged issuer operations (spec sections 4.3 and 4.4). -/

/-- Privileged messages after Issue: Mint, Burn, Freeze, Unfreeze,
GloballyFreeze, GloballyUnfreeze, SetWhitelistedLimit (spec section 6). -/
inductive PrivOp where
  | mintOp (amt : Nat)
  | burnOp (amt : Nat)
  | freezeOp (account : String) (amt : Nat)
  | unfreezeOp (account : String) (amt : Nat)
  | globalFreezeOp
  | globalUnfreezeOp
  | setWhitelistedLimitOp (account : String) (amt : Nat)
deriving DecidableEq, Repr

/-- Capability each privileged operation requires (spec section 4.3). -/
def requiredFeature : PrivOp → TokenFeature
  | .mintOp _ => .mint
  | .burnOp _ => .burn
  | .freezeOp _ _ => .freeze
  | .unfreezeOp _ _ => .freeze
  | .globalFreezeOp => .freeze
  | .globalUnfreezeOp => .freeze
  | .setWhitelistedLimitOp _ _ => .whitelist

/-- Modelled from the spec: handler for a privileged message on an
existing token (spec section 4.4).  Every handler authenticates the
sender against the issuer first (non-issuer fails with ErrUnauthorized
regardless of features), then checks the required capability
(ErrFeatureNotActive), then acts on the ledgers.  An error result leaves
the state untouched. -/
def execPrivOp (s : Chain) (sender denom : String) (op : PrivOp) :
    Except Err Chain :=
  match s.tokens denom with
  | none => .error .tokenNotFound
  | some ft =>
      if sender ≠ ft.issuer then .error .unauthorized
      else if requiredFeature op ∉ ft.features then .error .featureNotActive
      else
        match op with
        | .mintOp amt =>
            .ok { s with
              balance := setCell s.balance ft.issuer denom
                (s.balance ft.issuer denom + amt),
              supply := setSupply s.supply denom (s.supply denom + amt) }
        | .burnOp amt =>
            if s.balance ft.issuer denom < amt then .error .insufficientFunds
            else
              .ok { s with
                balance := setCell s.balance ft.issuer denom
                  (s.balance ft.issuer denom - amt),
                supply := setSupply s.supply denom (s.supply denom - amt) }
        | .freezeOp account amt =>
            .ok { s with
              frozen := setCell s.frozen account denom
                (s.frozen account denom + amt) }
        | .unfreezeOp account amt =>
            if s.frozen account denom < amt then .error .notEnoughBalance
            else
              .ok { s with
                frozen := setCell s.frozen account denom
                  (s.frozen account denom - amt) }
        | .globalFreezeOp =>
            .ok { s with
              tokens := setToken s.tokens denom { ft with globallyFrozen := true } }
        | .globalUnfreezeOp =>
            .ok { s with
              tokens := setToken s.tokens denom { ft with globallyFrozen := false } }
        | .setWhitelistedLimitOp account amt =>
            .ok { s with
              whitelisted := setCell s.whitelisted account denom amt }

/-- Error of a privileged operation, if any. -/
def privErrorOf (r : Except Err Chain) : Option Err :=
  match r with
  | .ok _ => none
  | .error e => some e

/-- The unburnable token of TestAssetFTBurn (features mint and freeze). -/
def ftNoBurn : FT :=
  { denom := "uabcnotburnable-iss", issuer := "iss", symbol := "ABCNotBurnable",
    subunit := "uabcnotburnable", precision := 6,
    features := [TokenFeature.mint, TokenFeature.freeze] }

/-- Chain state of TestAssetFTBurn right after issuing the unburnable
token: the issuer holds the initial 1000. -/
def chainNoBurn : Chain :=
  { tokens := fun d => if d = "uabcnotburnable-iss" then some ftNoBurn else none,
    frozen := fun _ _ => 0,
    whitelisted := fun _ _ => 0,
    balance := fun a d => if a = "iss" ∧ d = "uabcnotburnable-iss" then 1000 else 0,
    supply := fun d => if d = "uabcnotburnable-iss" then 1000 else 0 }

/-- The burnable token of TestAssetFTBurn (feature burn). -/
def ftBurnable : FT :=
  { denom := "uabcburnable-iss", issuer := "iss", symbol := "ABCBurnable",
    subunit := "uabcburnable", precision := 6,
    features := [TokenFeature.burn] }

/-- Chain state of TestAssetFTBurn right after issuing the burnable
token. -/
def chainBurnable : Chain :=
  { tokens := fun d => if d = "uabcburnable-iss" then some ftBurnable else none,
    frozen := fun _ _ => 0,
    whitelisted := fun _ _ => 0,
    balance := fun a d => if a = "iss" ∧ d = "uabcburnable-iss" then 1000 else 0,
    supply := fun d => if d = "uabcburnable-iss" then 1000 else 0 }

/-- TestAssetFTFreeze state late in the test: "rcp" holds 200 of which
200 are frozen. -/
def chainFreeze200 : Chain :=
  { tokens := fun d => if d = "uabc-iss" then some ftFreezeT else none,
    frozen := fun a d => if a = "rcp" ∧ d = "uabc-iss" then 200 else 0,
    whitelisted := fun _ _ => 0,
    balance := fun a d =>
      if a = "rcp" ∧ d = "uabc-iss" then 200
      else if a = "rcp2" ∧ d = "uabc-iss" then 800 else 0,
    supply := fun d => if d = "uabc-iss" then 1000 else 0 }

/-! Claim C6: the feature gate (spec section 4.3; pinned by
TestAssetFTBurn lines 76-90, TestAssetFTFreezeUnfreezable lines 342-355,
TestAssetFTMint lines 851-866 of src/unnamed/part_000). -/

/-- C6: for every token and every privileged operation, if the token's
feature set lacks the capability the operation requires, the issuer's
call fails with ErrFeatureNotActive; the error result carries no new
state, so no state changes. -/
theorem c6_feature_gate (s : Chain) (ft : FT) (sender denom : String)
    (op : PrivOp)
    (htok : s.tokens denom = some ft)
    (hiss : sender = ft.issuer)
    (hfeat : requiredFeature op ∉ ft.features) :
    execPrivOp s sender denom op = .error Err.featureNotActive := by
  unfold execPrivOp
  rw [htok]
  dsimp only
  rw [if_neg (by simp [hiss])]
  rw [if_pos hfeat]

/-- C6 witness: the gate applied to MsgBurn of the unburnable token of
TestAssetFTBurn (features mint and freeze only). -/
theorem c6_feature_gate_witness :
    (chainNoBurn.tokens "uabcnotburnable-iss" = some ftNoBurn ∧
     "iss" = ftNoBurn.issuer ∧
     requiredFeature (PrivOp.burnOp 1000) ∉ ftNoBurn.features) ∧
    execPrivOp chainNoBurn "iss" "uabcnotburnable-iss" (PrivOp.burnOp 1000) =
      .error Err.featureNotActive :=
  ⟨by decide,
   c6_feature_gate chainNoBurn ftNoBurn "iss" "uabcnotburnable-iss"
     (PrivOp.burnOp 1000) (by decide) (by decide) (by decide)⟩

/-! Claim C7: issuer authorization (spec section 4.4; pinned by
TestAssetFTBurn lines 115-127, TestAssetFTFreeze lines 439-452,
TestAssetFTWhitelist lines 1054-1067 of src/unnamed/part_000). -/

/-- C7: every privileged message (in particular Mint, Burn, Freeze and
SetWhitelistedLimit) whose sender is not the token's issuer fails with
ErrUnauthorized, regardless of the token's features. -/
theorem c7_non_issuer_unauthorized (s : Chain) (ft : FT)
    (sender denom : String) (op : PrivOp)
    (htok : s.tokens denom = some ft)
    (hni : sender ≠ ft.issuer) :
    execPrivOp s sender denom op = .error Err.unauthorized := by
  unfold execPrivOp
  rw [htok]
  dsimp only
  rw [if_pos hni]

/-- C7 witness: a random address calling MsgBurn on the burnable token of
TestAssetFTBurn is rejected with ErrUnauthorized even though the burn
feature is active. -/
theorem c7_non_issuer_unauthorized_witness :
    (chainBurnable.tokens "uabcburnable-iss" = some ftBurnable ∧
     "rnd" ≠ ftBurnable.issuer ∧
     requiredFeature (PrivOp.burnOp 1000) ∈ ftBurnable.features) ∧
    execPrivOp chainBurnable "rnd" "uabcburnable-iss" (PrivOp.burnOp 1000) =
      .error Err.unauthorized :=
  ⟨by decide,
   c7_non_issuer_unauthorized chainBurnable ftBurnable "rnd" "uabcburnable-iss"
     (PrivOp.burnOp 1000) (by decide) (by decide)⟩

/-! Claim C8: Unfreeze semantics (spec section 4.4; pinned by
TestAssetFTFreeze lines 578-613 of src/unnamed/part_000). -/

/-- C8: for an Unfreeze by the issuer on a token with the freeze feature,
if the amount exceeds the frozen amount of (account, denom) the handler
fails with ErrNotEnoughBalance (the error result carries no state, so the
frozen amount is unchanged); otherwise it succeeds and the frozen amount
decreases by exactly the unfreeze amount. -/
theorem c8_unfreeze (s : Chain) (ft : FT) (sender denom account : String)
    (amt : Nat)
    (htok : s.tokens denom = some ft)
    (hiss : sender = ft.issuer)
    (hfeat : TokenFeature.freeze ∈ ft.features) :
    (s.frozen account denom < amt →
      execPrivOp s sender denom (.unfreezeOp account amt) =
        .error Err.notEnoughBalance) ∧
    (amt ≤ s.frozen account denom →
      ∃ s', execPrivOp s sender denom (.unfreezeOp account amt) = .ok s' ∧
        s'.frozen account denom = s.frozen account denom - amt ∧
        s'.frozen account denom + amt = s.frozen account denom) := by
  unfold execPrivOp
  rw [htok]
  dsimp only
  rw [if_neg (by simp [hiss])]
  rw [if_neg (by simp [requiredFeature, hfeat])]
  constructor
  · intro h
    rw [if_pos h]
  · intro h
    rw [if_neg (not_lt.mpr h)]
    refine ⟨_, rfl, ?_, ?_⟩
    · dsimp only
      rw [setCell_self]
    · dsimp only
      rw [setCell_self]
      omega

/-- C8 witness: the theorem applied in the TestAssetFTFreeze state after
the first unfreeze (frozen 200): unfreezing 400 fails with
ErrNotEnoughBalance, unfreezing 200 leaves frozen 0. -/
theorem c8_unfreeze_witness :
    (chainFreeze200.tokens "uabc-iss" = some ftFreezeT ∧
     "iss" = ftFreezeT.issuer ∧
     TokenFeature.freeze ∈ ftFreezeT.features ∧
     chainFreeze200.frozen "rcp" "uabc-iss" < 400 ∧
     200 ≤ chainFreeze200.frozen "rcp" "uabc-iss") ∧
    ((chainFreeze200.frozen "rcp" "uabc-iss" < 400 →
      execPrivOp chainFreeze200 "iss" "uabc-iss" (.unfreezeOp "rcp" 400) =
        .error Err.notEnoughBalance) ∧
     (400 ≤ chainFreeze200.frozen "rcp" "uabc-iss" →
      ∃ s', execPrivOp chainFreeze200 "iss" "uabc-iss" (.unfreezeOp "rcp" 400) = .ok s' ∧
        s'.frozen "rcp" "uabc-iss" = chainFreeze200.frozen "rcp" "uabc-iss" - 400 ∧
        s'.frozen "rcp" "uabc-iss" + 400 = chainFreeze200.frozen "rcp" "uabc-iss")) ∧
    ((chainFreeze200.frozen "rcp" "uabc-iss" < 200 →
      execPrivOp chainFreeze200 "iss" "uabc-iss" (.unfreezeOp "rcp" 200) =
        .error Err.notEnoughBalance) ∧
     (200 ≤ chainFreeze200.frozen "rcp" "uabc-iss" →
      ∃ s', execPrivOp chainFreeze200 "iss" "uabc-iss" (.unfreezeOp "rcp" 200) = .ok s' ∧
        s'.frozen "rcp" "uabc-iss" = chainFreeze200.frozen "rcp" "uabc-iss" - 200 ∧
        s'.frozen "rcp" "uabc-iss" + 200 = chainFreeze200.frozen "rcp" "uabc-iss")) :=
  ⟨by decide,
   c8_unfreeze chainFreeze200 ftFreezeT "iss" "uabc-iss" "rcp" 400
     (by decide) (by decide) (by decide),
   c8_unfreeze chainFreeze200 ftFreezeT "iss" "uabc-iss" "rcp" 200
     (by decide) (by decide) (by decide)⟩

/-! Genesis import/export (spec section 6, genesis format; pinned by
TestImportAndExportGenesis in src/x/asset/ft/genesis_test.go). -/

/-- One genesis balance entry: an address with its coins, mirroring
types.Balance of the genesis state. -/
structure GBalance where
  address : String
  coins : List (String × Nat)
deriving DecidableEq, Repr

/-- Genesis state of the module (spec section 6): token definitions,
frozen balances and whitelisted balances. -/
structure GenesisState where
  tokens : List FT
  frozenBalances : List GBalance
  whitelistedBalances : List GBalance
deriving DecidableEq, Repr

/-- Modelled from the spec: the keeper's persisted state as ordered
key-value entries — the token registry keyed by denom and the frozen and
whitelisted ledgers keyed by (address, denom).  The store iteration order
is abstracted as the entry-list order. -/
structure GenStore where
  tokenList : List FT
  frozenEntries : List ((String × String) × Nat)
  whitelistedEntries : List ((String × String) × Nat)
deriving DecidableEq, Repr

/-- Modelled from the spec: idempotent registry write keyed by denom
(spec section 4.2): replaces an existing record or appends a new one. -/
def putToken (ts : List FT) (t : FT) : List FT :=
  if ∃ u ∈ ts, u.denom = t.denom then
    ts.map (fun u => if u.denom = t.denom then t else u)
  else ts ++ [t]

/-- Modelled from the spec: ledger write keyed by (address, denom); zero
amounts are stored as absent keys (spec section 4.5). -/
def setEntry (es : List ((String × String) × Nat)) (k : String × String)
    (v : Nat) : List ((String × String) × Nat) :=
  if v = 0 then es.filter (fun e => ¬ e.1 = k)
  else if ∃ e ∈ es, e.1 = k then
    es.map (fun e => if e.1 = k then (k, v) else e)
  else es ++ [(k, v)]

/-- Write all coins of one genesis balance into a ledger. -/
def setBalances (es : List ((String × String) × Nat)) (b : GBalance) :
    List ((String × String) × Nat) :=
  b.coins.foldl (fun a c => setEntry a (b.address, c.1) c.2) es

/-- Modelled from the spec: InitGenesis re-populates the registry, the
frozen ledger and the whitelist ledger from the genesis lists
(spec section 6, genesis format). -/
def initGenesis (g : GenesisState) : GenStore :=
  { tokenList := g.tokens.foldl putToken [],
    frozenEntries := g.frozenBalances.foldl setBalances [],
    whitelistedEntries := g.whitelistedBalances.foldl setBalances [] }

/-- Group ledger entries back into per-address balances, addresses in
order of first appearance. -/
def groupByAddress : List ((String × String) × Nat) → List GBalance
  | [] => []
  | e :: rest =>
      { address := e.1.1,
        coins := ((e :: rest).filter (fun x => x.1.1 = e.1.1)).map
          (fun x => (x.1.2, x.2)) } ::
      groupByAddress (rest.filter (fun x => ¬ x.1.1 = e.1.1))
termination_by l => l.length
decreasing_by
  simp only [List.length_cons]
  exact Nat.lt_succ_of_le (List.length_filter_le _ _)

/-- Modelled from the spec: ExportGenesis reads the registry and both
ledgers back out of the store (spec section 6). -/
def exportGenesis (st : GenStore) : GenesisState :=
  { tokens := st.tokenList,
    frozenBalances := groupByAddress st.frozenEntries,
    whitelistedBalances := groupByAddress st.whitelistedEntries }

/-- Flat list of ledger entries a genesis balance list produces. -/
def flattenPairs (bs : List GBalance) : List ((String × String) × Nat) :=
  bs.flatMap (fun b => b.coins.map (fun c => ((b.address, c.1), c.2)))

theorem putToken_fresh (ts : List FT) (t : FT)
    (h : t.denom ∉ ts.map FT.denom) : putToken ts t = ts ++ [t] := by
  unfold putToken
  rw [if_neg]
  rintro ⟨u, hu, he⟩
  apply h
  rw [List.mem_map]
  exact ⟨u, hu, he⟩

theorem foldl_putToken (l : List FT) (acc : List FT)
    (h : (acc.map FT.denom ++ l.map FT.denom).Nodup) :
    l.foldl putToken acc = acc ++ l := by
  induction l generalizing acc with
  | nil => simp
  | cons t rest ih =>
      simp only [List.foldl_cons]
      have h0 : (acc.map FT.denom ++ t.denom :: rest.map FT.denom).Nodup := by
        simpa using h
      have hfresh : t.denom ∉ acc.map FT.denom := by
        have h2 := List.nodup_append.mp h0
        exact fun hm => h2.2.2 hm (List.mem_cons_self _ _)
      rw [putToken_fresh acc t hfresh, ih (acc ++ [t]) ?_, List.append_assoc]
      · rfl
      · have heq : (acc ++ [t]).map FT.denom ++ rest.map FT.denom =
            acc.map FT.denom ++ t.denom :: rest.map FT.denom := by simp
        rw [heq]
        exact h0

theorem setEntry_fresh (es : List ((String × String) × Nat))
    (k : String × String) (v : Nat) (hv : 0 < v)
    (h : k ∉ es.map Prod.fst) : setEntry es k v = es ++ [(k, v)] := by
  unfold setEntry
  rw [if_neg hv.ne', if_neg]
  rintro ⟨e, he, hk⟩
  apply h
  rw [List.mem_map]
  exact ⟨e, he, hk⟩

theorem foldl_setEntry (pairs acc : List ((String × String) × Nat))
    (h : (acc.map Prod.fst ++ pairs.map Prod.fst).Nodup)
    (hpos : ∀ p ∈ pairs, 0 < p.2) :
    pairs.foldl (fun a p => setEntry a p.1 p.2) acc = acc ++ pairs := by
  induction pairs generalizing acc with
  | nil => simp
  | cons p rest ih =>
      simp only [List.foldl_cons]
      have h0 : (acc.map Prod.fst ++ p.1 :: rest.map Prod.fst).Nodup := by
        simpa using h
      have hfresh : p.1 ∉ acc.map Prod.fst := by
        have h2 := List.nodup_append.mp h0
        exact fun hm => h2.2.2 hm (List.mem_cons_self _ _)
      rw [setEntry_fresh acc p.1 p.2 (hpos p (List.mem_cons_self _ _)) hfresh]
      have hp : acc ++ [(p.1, p.2)] = acc ++ [p] := by simp
      rw [hp, ih (acc ++ [p]) ?_ (fun q hq => hpos q (List.mem_cons_of_mem _ hq)),
        List.append_assoc]
      · rfl
      · have heq : (acc ++ [p]).map Prod.fst ++ rest.map Prod.fst =
            acc.map Prod.fst ++ p.1 :: rest.map Prod.fst := by simp
        rw [heq]
        exact h0

theorem foldl_setBalances (bs : List GBalance)
    (acc : List ((String × String) × Nat)) :
    bs.foldl setBalances acc =
      (flattenPairs bs).foldl (fun a p => setEntry a p.1 p.2) acc := by
  induction bs generalizing acc with
  | nil => simp [flattenPairs]
  | cons b rest ih =>
      simp only [List.foldl_cons, flattenPairs, List.flatMap_cons,
        List.foldl_append]
      rw [List.foldl_map]
      exact ih _

theorem flattenPairs_keys (bs : List GBalance) :
    (flattenPairs bs).map Prod.fst =
      bs.flatMap (fun b => b.coins.map (fun c => (b.address, c.1))) := by
  simp only [flattenPairs, List.map_flatMap, List.map_map]
  rfl

theorem flattenPairs_keys_nodup (bs : List GBalance)
    (ha : (bs.map GBalance.address).Nodup)
    (hc : ∀ b ∈ bs, (b.coins.map Prod.fst).Nodup) :
    ((flattenPairs bs).map Prod.fst).Nodup := by
  rw [flattenPairs_keys, List.nodup_flatMap]
  constructor
  · intro b hb
    have : b.coins.map (fun c => (b.address, c.1)) =
        (b.coins.map Prod.fst).map (fun d => (b.address, d)) := by
      simp [List.map_map, Function.comp]
    rw [this]
    exact (hc b hb).map (fun x y hxy => by
      simpa using congrArg Prod.snd hxy)
  · have hpw := List.pairwise_map.mp ha
    refine hpw.imp ?_
    intro b b' hne x hxb hxb'
    simp only [List.mem_map] at hxb hxb'
    obtain ⟨c, _, rfl⟩ := hxb
    obtain ⟨c', _, he⟩ := hxb'
    exact hne (congrArg Prod.fst he).symm

theorem filter_addr_all (addr : String) (coins : List (String × Nat)) :
    ((coins.map (fun c => ((addr, c.1), c.2))).filter
      (fun x => x.1.1 = addr)) = coins.map (fun c => ((addr, c.1), c.2)) := by
  apply List.filter_eq_self.mpr
  intro x hx
  simp only [List.mem_map] at hx
  obtain ⟨c, _, rfl⟩ := hx
  simp

theorem filter_addr_none (addr : String) (coins : List (String × Nat)) :
    ((coins.map (fun c => ((addr, c.1), c.2))).filter
      (fun x => ¬ x.1.1 = addr)) = [] := by
  apply List.filter_eq_nil_iff.mpr
  intro x hx
  simp only [List.mem_map] at hx
  obtain ⟨c, _, rfl⟩ := hx
  simp

theorem filter_flatten_none (addr : String) (bs : List GBalance)
    (h : addr ∉ bs.map GBalance.address) :
    ((flattenPairs bs).filter (fun x => x.1.1 = addr)) = [] := by
  apply List.filter_eq_nil_iff.mpr
  intro x hx
  simp only [flattenPairs, List.mem_flatMap, List.mem_map] at hx
  obtain ⟨b, hb, c, _, rfl⟩ := hx
  simp only [decide_eq_true_eq]
  intro he
  apply h
  rw [List.mem_map]
  exact ⟨b, hb, he⟩

theorem filter_flatten_all (addr : String) (bs : List GBalance)
    (h : addr ∉ bs.map GBalance.address) :
    ((flattenPairs bs).filter (fun x => ¬ x.1.1 = addr)) = flattenPairs bs := by
  apply List.filter_eq_self.mpr
  intro x hx
  simp only [flattenPairs, List.mem_flatMap, List.mem_map] at hx
  obtain ⟨b, hb, c, _, rfl⟩ := hx
  simp only [decide_not, Bool.not_eq_true', decide_eq_false_iff_not]
  intro he
  apply h
  rw [List.mem_map]
  exact ⟨b, hb, he⟩

theorem map_pairs_back (addr : String) (l : List (String × Nat)) :
    (l.map (fun c => ((addr, c.1), c.2))).map (fun x => (x.1.2, x.2)) = l := by
  induction l with
  | nil => rfl
  | cons c cs ih => simp [ih]

theorem groupByAddress_flattenPairs (bs : List GBalance)
    (ha : (bs.map GBalance.address).Nodup)
    (hne : ∀ b ∈ bs, b.coins ≠ []) :
    groupByAddress (flattenPairs bs) = bs := by
  induction bs with
  | nil => simp [flattenPairs, groupByAddress]
  | cons b rest ih =>
      rw [List.map_cons] at ha
      have ha2 := List.nodup_cons.mp ha
      have hmem : b.address ∉ rest.map GBalance.address := ha2.1
      obtain ⟨c0, cs, hcoins⟩ : ∃ c0 cs, b.coins = c0 :: cs := by
        cases hcb : b.coins with
        | nil => exact absurd hcb (hne b (List.mem_cons_self _ _))
        | cons c0 cs => exact ⟨c0, cs, rfl⟩
      have hflat : flattenPairs (b :: rest) =
          ((b.address, c0.1), c0.2) ::
            (cs.map (fun c => ((b.address, c.1), c.2)) ++ flattenPairs rest) := by
        simp [flattenPairs, hcoins]
      have hre : ((b.address, c0.1), c0.2) ::
          (cs.map (fun c => ((b.address, c.1), c.2)) ++ flattenPairs rest) =
          b.coins.map (fun c => ((b.address, c.1), c.2)) ++ flattenPairs rest := by
        simp [hcoins]
      have hposf : (b.coins.map (fun c => ((b.address, c.1), c.2)) ++
          flattenPairs rest).filter (fun x => x.1.1 = b.address) =
          b.coins.map (fun c => ((b.address, c.1), c.2)) := by
        rw [List.filter_append, filter_addr_all,
          filter_flatten_none _ _ hmem, List.append_nil]
      have hnegf : (cs.map (fun c => ((b.address, c.1), c.2)) ++
          flattenPairs rest).filter (fun x => ¬ x.1.1 = b.address) =
          flattenPairs rest := by
        rw [List.filter_append, filter_addr_none, List.nil_append,
          filter_flatten_all _ _ hmem]
      rw [hflat, groupByAddress]
      dsimp only
      rw [hre, hposf, hnegf, map_pairs_back,
        ih ha2.2 (fun b' hb' => hne b' (List.mem_cons_of_mem _ hb'))]

theorem groupByAddress_foldl (bs : List GBalance)
    (hna : (bs.map GBalance.address).Nodup)
    (hcs : ∀ b ∈ bs, b.coins ≠ [] ∧ (b.coins.map Prod.fst).Nodup ∧
      ∀ c ∈ b.coins, 0 < c.2) :
    groupByAddress (bs.foldl setBalances []) = bs := by
  have hkeys : (([] : List ((String × String) × Nat)).map Prod.fst ++
      (flattenPairs bs).map Prod.fst).Nodup := by
    simpa using flattenPairs_keys_nodup bs hna (fun b hb => (hcs b hb).2.1)
  have hp : ∀ p ∈ flattenPairs bs, 0 < p.2 := by
    intro p hp
    simp only [flattenPairs, List.mem_flatMap, List.mem_map] at hp
    obtain ⟨b, hb, c, hc, rfl⟩ := hp
    exact (hcs b hb).2.2 c hc
  rw [foldl_setBalances, foldl_setEntry _ _ hkeys hp, List.nil_append]
  exact groupByAddress_flattenPairs bs hna (fun b hb => (hcs b hb).1)

/-! Claim C9: genesis round-trip (spec section 6; pinned by
TestImportAndExportGenesis, src/x/asset/ft/genesis_test.go lines
83-124). -/

/-- C9: for every well-formed genesis state — distinct token denoms,
distinct balance addresses, and per-address coin lists that are nonempty
with distinct denoms and positive amounts, as the host's coin validation
guarantees — importing it with InitGenesis and exporting with
ExportGenesis yields the same multiset (a permutation) of tokens, frozen
balances and whitelisted balances. -/
theorem c9_genesis_round_trip (g : GenesisState)
    (htok : (g.tokens.map FT.denom).Nodup)
    (hfa : (g.frozenBalances.map GBalance.address).Nodup)
    (hfc : ∀ b ∈ g.frozenBalances, b.coins ≠ [] ∧
      (b.coins.map Prod.fst).Nodup ∧ ∀ c ∈ b.coins, 0 < c.2)
    (hwa : (g.whitelistedBalances.map GBalance.address).Nodup)
    (hwc : ∀ b ∈ g.whitelistedBalances, b.coins ≠ [] ∧
      (b.coins.map Prod.fst).Nodup ∧ ∀ c ∈ b.coins, 0 < c.2) :
    (exportGenesis (initGenesis g)).tokens.Perm g.tokens ∧
    (exportGenesis (initGenesis g)).frozenBalances.Perm g.frozenBalances ∧
    (exportGenesis (initGenesis g)).whitelistedBalances.Perm g.whitelistedBalances := by
  refine ⟨?_, ?_, ?_⟩
  · show ((initGenesis g).tokenList).Perm g.tokens
    have hto : (initGenesis g).tokenList = g.tokens := by
      show (g.tokens.foldl putToken []) = g.tokens
      rw [foldl_putToken g.tokens [] (by simpa using htok)]
      simp
    rw [hto]
  · show (groupByAddress (initGenesis g).frozenEntries).Perm g.frozenBalances
    have h2 : (initGenesis g).frozenEntries = g.frozenBalances.foldl setBalances [] := rfl
    rw [h2, groupByAddress_foldl g.frozenBalances hfa hfc]
  · show (groupByAddress (initGenesis g).whitelistedEntries).Perm g.whitelistedBalances
    have h3 : (initGenesis g).whitelistedEntries =
      g.whitelistedBalances.foldl setBalances [] := rfl
    rw [h3, groupByAddress_foldl g.whitelistedBalances hwa hwc]

/-- Genesis token abc0 of the TestImportAndExportGenesis data: freeze and
whitelist features, globally frozen. -/
def genTok0 : FT :=
  { denom := "abc0-iss", issuer := "iss", symbol := "ABC0", subunit := "abc0",
    precision := 7, features := [TokenFeature.freeze, TokenFeature.whitelist],
    globallyFrozen := true }

/-- Genesis token abc1 of the TestImportAndExportGenesis data: freeze and
whitelist features, burn rate 0.1, not globally frozen. -/
def genTok1 : FT :=
  { denom := "abc1-iss", issuer := "iss", symbol := "ABC1", subunit := "abc1",
    precision := 3, features := [TokenFeature.freeze, TokenFeature.whitelist],
    burnRate := 100000000000000000 }

/-- Concrete genesis state shaped like the TestImportAndExportGenesis
data: two tokens, frozen balances over both denoms, whitelisted balances
over both denoms. -/
def genState : GenesisState :=
  { tokens := [genTok0, genTok1],
    frozenBalances :=
      [{ address := "a1", coins := [("abc0-iss", 5), ("abc1-iss", 7)] },
       { address := "a2", coins := [("abc0-iss", 3)] }],
    whitelistedBalances :=
      [{ address := "a3", coins := [("abc0-iss", 11), ("abc1-iss", 13)] },
       { address := "a4", coins := [("abc1-iss", 2)] }] }

/-- C9 witness: the round-trip theorem applied to the concrete genesis
state. -/
theorem c9_genesis_round_trip_witness :
    ((genState.tokens.map FT.denom).Nodup ∧
     (genState.frozenBalances.map GBalance.address).Nodup ∧
     (∀ b ∈ genState.frozenBalances, b.coins ≠ [] ∧
       (b.coins.map Prod.fst).Nodup ∧ ∀ c ∈ b.coins, 0 < c.2) ∧
     (genState.whitelistedBalances.map GBalance.address).Nodup ∧
     (∀ b ∈ genState.whitelistedBalances, b.coins ≠ [] ∧
       (b.coins.map Prod.fst).Nodup ∧ ∀ c ∈ b.coins, 0 < c.2)) ∧
    ((exportGenesis (initGenesis genState)).tokens.Perm genState.tokens ∧
     (exportGenesis (initGenesis genState)).frozenBalances.Perm
       genState.frozenBalances ∧
     (exportGenesis (initGenesis genState)).whitelistedBalances.Perm
       genState.whitelistedBalances) :=
  ⟨by decide,
   c9_genesis_round_trip genState (by decide) (by decide) (by decide)
     (by decide) (by decide)⟩

/-! The gRPC query service (second file of
src/x/asset/ft/types/expected_keepers.go): each balance query decodes the
bech32 account first and only then consults the keeper.  The bech32
decoder itself belongs to the host SDK, so it is abstracted as a
`String → Option String` parameter; the keeper getters are modelled from
the spec (absent entry is zero). -/

/-- Modelled from the spec: keeper getter for one ledger entry; an absent
entry is zero (spec section 3). -/
def lookupEntry (es : List ((String × String) × Nat)) (a d : String) : Nat :=
  match es.find? (fun e => e.1 = (a, d)) with
  | some e => e.2
  | none => 0

/-- Modelled from the spec: keeper getter for all ledger entries of one
address, as (denom, amount) pairs. -/
def coinsOfAddress (es : List ((String × String) × Nat)) (a : String) :
    List (String × Nat) :=
  (es.filter (fun e => e.1.1 = a)).map (fun e => (e.1.2, e.2))

/-- FrozenBalance query: decode the account address, then read the frozen
ledger (QueryService.FrozenBalance in the source). -/
def queryFrozenBalance (decode : String → Option String) (st : GenStore)
    (account denom : String) : Except Err Nat :=
  match decode account with
  | none => .error .invalidAddress
  | some a => .ok (lookupEntry st.frozenEntries a denom)

/-- FrozenBalances query: decode the account address, then list the frozen
ledger entries of the account (QueryService.FrozenBalances in the
source). -/
def queryFrozenBalances (decode : String → Option String) (st : GenStore)
    (account : String) : Except Err (List (String × Nat)) :=
  match decode account with
  | none => .error .invalidAddress
  | some a => .ok (coinsOfAddress st.frozenEntries a)

/-- WhitelistedBalance query: decode the account address, then read the
whitelist ledger (QueryService.WhitelistedBalance in the source). -/
def queryWhitelistedBalance (decode : String → Option String) (st : GenStore)
    (account denom : String) : Except Err Nat :=
  match decode account with
  | none => .error .invalidAddress
  | some a => .ok (lookupEntry st.whitelistedEntries a denom)

/-- WhitelistedBalances query: decode the account address, then list the
whitelist ledger entries of the account (QueryService.WhitelistedBalances
in the source). -/
def queryWhitelistedBalances (decode : String → Option String) (st : GenStore)
    (account : String) : Except Err (List (String × Nat)) :=
  match decode account with
  | none => .error .invalidAddress
  | some a => .ok (coinsOfAddress st.whitelistedEntries a)

theorem lookupEntry_absent (es : List ((String × String) × Nat))
    (a d : String) (h : ∀ e ∈ es, ¬ e.1 = (a, d)) : lookupEntry es a d = 0 := by
  have hf : es.find? (fun e => e.1 = (a, d)) = none :=
    List.find?_eq_none.mpr (by intro e he; simpa using h e he)
  unfold lookupEntry
  rw [hf]

/-! Claim C10: address validation and totality of the balance queries
(QueryService in src/x/asset/ft/types/expected_keepers.go, second file,
lines 66-127). -/

/-- C10: for each of FrozenBalance, FrozenBalances, WhitelistedBalance and
WhitelistedBalances, an account string the bech32 decoder rejects makes
the query fail with the invalid-address error, with a result that does
not depend on the ledger state; an account the decoder accepts never
fails — the query returns the ledger value, which is zero when no entry
for (account, denom) exists. -/
theorem c10_query_address_validation (decode : String → Option String)
    (st st' : GenStore) (account denom : String) :
    (decode account = none →
      queryFrozenBalance decode st account denom = .error Err.invalidAddress ∧
      queryFrozenBalances decode st account = .error Err.invalidAddress ∧
      queryWhitelistedBalance decode st account denom = .error Err.invalidAddress ∧
      queryWhitelistedBalances decode st account = .error Err.invalidAddress ∧
      queryFrozenBalance decode st account denom =
        queryFrozenBalance decode st' account denom ∧
      queryFrozenBalances decode st account =
        queryFrozenBalances decode st' account ∧
      queryWhitelistedBalance decode st account denom =
        queryWhitelistedBalance decode st' account denom ∧
      queryWhitelistedBalances decode st account =
        queryWhitelistedBalances decode st' account) ∧
    (∀ a, decode account = some a →
      queryFrozenBalance decode st account denom =
        .ok (lookupEntry st.frozenEntries a denom) ∧
      queryFrozenBalances decode st account =
        .ok (coinsOfAddress st.frozenEntries a) ∧
      queryWhitelistedBalance decode st account denom =
        .ok (lookupEntry st.whitelistedEntries a denom) ∧
      queryWhitelistedBalances decode st account =
        .ok (coinsOfAddress st.whitelistedEntries a) ∧
      ((∀ e ∈ st.frozenEntries, ¬ e.1 = (a, denom)) →
        queryFrozenBalance decode st account denom = .ok 0) ∧
      ((∀ e ∈ st.whitelistedEntries, ¬ e.1 = (a, denom)) →
        queryWhitelistedBalance decode st account denom = .ok 0)) := by
  constructor
  · intro h
    unfold queryFrozenBalance queryFrozenBalances
      queryWhitelistedBalance queryWhitelistedBalances
    rw [h]
    exact ⟨rfl, rfl, rfl, rfl, rfl, rfl, rfl, rfl⟩
  · intro a h
    unfold queryFrozenBalance queryFrozenBalances
      queryWhitelistedBalance queryWhitelistedBalances
    rw [h]
    refine ⟨rfl, rfl, rfl, rfl, ?_, ?_⟩
    · intro habs
      dsimp only
      rw [lookupEntry_absent _ _ _ habs]
    · intro habs
      dsimp only
      rw [lookupEntry_absent _ _ _ habs]

/-- Decoder used by the C10 witness: accepts exactly one account
string. -/
def decodeW : String → Option String :=
  fun s => if s = "cosmos1good" then some "a9" else none

/-- Ledger state used by the C10 witness: one frozen entry for the
decoded account, an empty whitelist ledger. -/
def qStore : GenStore :=
  { tokenList := [genTok0],
    frozenEntries := [(("a9", "abc0-iss"), 5)],
    whitelistedEntries := [] }

/-- C10 witness: the theorem applied to a rejected account string and to
the accepted one, with the concrete query results. -/
theorem c10_query_address_validation_witness :
    (decodeW "not-bech32" = none ∧ decodeW "cosmos1good" = some "a9") ∧
    (queryFrozenBalance decodeW qStore "not-bech32" "abc0-iss" =
        .error Err.invalidAddress ∧
      queryFrozenBalances decodeW qStore "not-bech32" = .error Err.invalidAddress ∧
      queryWhitelistedBalance decodeW qStore "not-bech32" "abc0-iss" =
        .error Err.invalidAddress ∧
      queryWhitelistedBalances decodeW qStore "not-bech32" =
        .error Err.invalidAddress ∧
      queryFrozenBalance decodeW qStore "not-bech32" "abc0-iss" =
        queryFrozenBalance decodeW (initGenesis genState) "not-bech32" "abc0-iss" ∧
      queryFrozenBalances decodeW qStore "not-bech32" =
        queryFrozenBalances decodeW (initGenesis genState) "not-bech32" ∧
      queryWhitelistedBalance decodeW qStore "not-bech32" "abc0-iss" =
        queryWhitelistedBalance decodeW (initGenesis genState) "not-bech32" "abc0-iss" ∧
      queryWhitelistedBalances decodeW qStore "not-bech32" =
        queryWhitelistedBalances decodeW (initGenesis genState) "not-bech32") ∧
    (queryFrozenBalance decodeW qStore "cosmos1good" "abc0-iss" =
        .ok (lookupEntry qStore.frozenEntries "a9" "abc0-iss") ∧
      queryFrozenBalances decodeW qStore "cosmos1good" =
        .ok (coinsOfAddress qStore.frozenEntries "a9") ∧
      queryWhitelistedBalance decodeW qStore "cosmos1good" "abc0-iss" =
        .ok (lookupEntry qStore.whitelistedEntries "a9" "abc0-iss") ∧
      queryWhitelistedBalances decodeW qStore "cosmos1good" =
        .ok (coinsOfAddress qStore.whitelistedEntries "a9") ∧
      ((∀ e ∈ qStore.frozenEntries, ¬ e.1 = ("a9", "abc0-iss")) →
        queryFrozenBalance decodeW qStore "cosmos1good" "abc0-iss" = .ok 0) ∧
      ((∀ e ∈ qStore.whitelistedEntries, ¬ e.1 = ("a9", "abc0-iss")) →
        queryWhitelistedBalance decodeW qStore "cosmos1good" "abc0-iss" = .ok 0)) ∧
    (queryFrozenBalance decodeW qStore "cosmos1good" "abc0-iss" = .ok 5 ∧
      queryFrozenBalances decodeW qStore "cosmos1good" = .ok [("abc0-iss", 5)] ∧
      queryWhitelistedBalance decodeW qStore "cosmos1good" "abc0-iss" = .ok 0 ∧
      queryWhitelistedBalances decodeW qStore "cosmos1good" = .ok []) :=
  ⟨⟨rfl, rfl⟩,
   (c10_query_address_validation decodeW qStore (initGenesis genState)
     "not-bech32" "abc0-iss").1 rfl,
   (c10_query_address_validation decodeW qStore qStore
     "cosmos1good" "abc0-iss").2 "a9" rfl,
   ⟨rfl, rfl, rfl, rfl⟩⟩

end AssetFT
